import Mathlib

/-!
Verification development for the contact-manager program `dz12.py`.

The Python source is shallowly embedded: each Python function becomes a Lean
definition with the same name; exceptions become `Except PyError`; the ordered
dictionary backing `AddressBook` becomes an association list with
insertion-order-preserving update; `datetime` values become a Gregorian
calendar model with an explicit seconds-of-day component.
-/

set_option autoImplicit false

namespace Dz12

/-- Python exception values that the program can raise, with their message. -/
inductive PyError where
  | valueError (msg : String)
  | keyError (msg : String)
  | indexError (msg : String)
  | typeError (msg : String)
  | ioError (msg : String)
  | zeroDivisionError
deriving DecidableEq

instance exceptDecEq {ε α : Type} [DecidableEq ε] [DecidableEq α] :
    DecidableEq (Except ε α) := fun x y =>
  match x, y with
  | .ok a, .ok b => decidable_of_iff (a = b) (by simp)
  | .error a, .error b => decidable_of_iff (a = b) (by simp)
  | .ok _, .error _ => isFalse (by simp)
  | .error _, .ok _ => isFalse (by simp)

/-- Python `query in s` substring test on strings. -/
def pyIn (query s : String) : Bool :=
  decide (List.IsInfix query.data s.data)

/-- Python `s.split("-")`: split on every dash, keeping empty components. -/
def splitDash : List Char → List (List Char)
  | [] => [[]]
  | c :: rest =>
    if c = '-' then [] :: splitDash rest
    else
      match splitDash rest with
      | [] => [[c]]
      | t :: ts => (c :: t) :: ts

/-- Numeric value of a list of decimal digit characters (Python `int` on the
digit strings produced by a successful `strptime` match). -/
def digitsToNat (l : List Char) : Nat :=
  l.foldl (fun a c => 10 * a + (c.toNat - 48)) 0

/-- Gregorian leap-year rule used by Python `datetime`. -/
def leapYear (y : Nat) : Bool :=
  (y % 4 == 0 && !(y % 100 == 0)) || y % 400 == 0

/-- Length of month `m` (1-12) in year `y`, as in Python `datetime`. -/
def daysInMonth (y m : Nat) : Nat :=
  if m = 2 then (if leapYear y then 29 else 28)
  else if m = 4 ∨ m = 6 ∨ m = 9 ∨ m = 11 then 30
  else 31

/-- The `%Y` component of `strptime`: exactly four decimal digits. -/
def yearComponentOk (l : List Char) : Bool :=
  decide (l.length = 4) && l.all Char.isDigit

/-- The `%m` component of `strptime`: one or two digits with value 1-12. -/
def monthComponentOk (l : List Char) : Bool :=
  decide (l.length = 1 ∨ l.length = 2) && l.all Char.isDigit &&
    decide (1 ≤ digitsToNat l ∧ digitsToNat l ≤ 12)

/-- The `%d` component of `strptime`: one or two digits with value 1-31. -/
def dayComponentOk (l : List Char) : Bool :=
  decide (l.length = 1 ∨ l.length = 2) && l.all Char.isDigit &&
    decide (1 ≤ digitsToNat l ∧ digitsToNat l ≤ 31)

/-- `datetime.strptime(s, "%Y-%m-%d")`: the format regex must match the whole
string and the matched fields must form a real calendar date (Python's
`datetime` constructor rejects, e.g., February 30).  Returns the parsed
`(year, month, day)` on success, `none` when Python would raise `ValueError`. -/
def strptimeYMD (s : List Char) : Option (Nat × Nat × Nat) :=
  match splitDash s with
  | [ys, ms, ds] =>
    if yearComponentOk ys && monthComponentOk ms && dayComponentOk ds then
      let y := digitsToNat ys
      let m := digitsToNat ms
      let d := digitsToNat ds
      if 1 ≤ y ∧ y ≤ 9999 ∧ d ≤ daysInMonth y m then some (y, m, d) else none
    else none
  | _ => none

/-- `Phone.validate_phone` applied to a (non-null) string:
`len(phone) == 10 and phone.isdigit()`. -/
def validate_phone_str (s : String) : Bool :=
  decide (s.length = 10) && s.data.all Char.isDigit

/-- `Phone.validate_phone(phone)` on a possibly-null argument: `len(None)`
raises `TypeError`, any string yields a boolean. -/
def validate_phone (phone : Option String) : Except PyError Bool :=
  match phone with
  | none => .error (.typeError "object of type \x27NoneType\x27 has no len()")
  | some s => .ok (validate_phone_str s)

/-- `Birthday.validate_birthday(birthday)`: `strptime` must succeed, then the
split-out integer fields must satisfy the range checks.  Any `ValueError`
raised inside (in particular by `strptime`) yields `False`. -/
def validate_birthday (s : String) : Bool :=
  match strptimeYMD s.data with
  | none => false
  | some (y, m, d) =>
    decide (1900 ≤ y ∧ y ≤ 2100 ∧ 1 ≤ m ∧ m ≤ 12 ∧ 1 ≤ d ∧ d ≤ 31)

example : validate_birthday "2021-02-28" = true := by decide
example : validate_birthday "2021-02-30" = false := by decide
example : validate_birthday "1800-05-20" = false := by decide
example : strptimeYMD ("1800-05-20").data = some (1800, 5, 20) := by decide
example : validate_phone_str "1234567890" = true := by decide
example : validate_phone_str "12345-6789" = false := by decide

/-- One contact, as held by the Python `Record` class: a `Name` (unvalidated
string), an ordered list of `Phone` values, an optional `Birthday` value. -/
structure Record where
  name : String
  phones : List String
  birthday : Option String
deriving DecidableEq

/-- `Record.__init__(name, birthday)`: the `Birthday` property setter raises
`ValueError` when a non-null birthday fails `validate_birthday`. -/
def Record.mk_init (name : String) (birthday : Option String) :
    Except PyError Record :=
  match birthday with
  | none => .ok ⟨name, [], none⟩
  | some b =>
    if validate_birthday b then .ok ⟨name, [], some b⟩
    else .error (.valueError "Invalid birthday format. Use YYYY-MM-DD")

/-- `Record.add_phone(phone)`: a null phone is a no-op; a valid phone is
appended; an invalid phone raises `ValueError`. -/
def Record.add_phone (r : Record) (phone : Option String) :
    Except PyError Record :=
  match phone with
  | none => .ok r
  | some p =>
    if validate_phone_str p then .ok { r with phones := r.phones ++ [p] }
    else .error (.valueError "Phone number must be 10 digits")

/-- Replace the first occurrence of `old` in a list by `new_val`. -/
def replaceFirst (l : List String) (old new_val : String) : List String :=
  match l with
  | [] => []
  | p :: rest =>
    if p = old then new_val :: rest else p :: replaceFirst rest old new_val

/-- `Record.edit_phone(name, new_phone)`: find the first phone equal to the
old value (`ValueError` if absent), check the new value (`ValueError` if a
non-null new value is invalid), then assign it in place. -/
def Record.edit_phone (r : Record) (old new_phone : String) :
    Except PyError Record :=
  if old ∈ r.phones then
    if validate_phone_str new_phone then
      .ok { r with phones := replaceFirst r.phones old new_phone }
    else .error (.valueError "Phone number must be 10 digits")
  else .error (.valueError ("Contact \x27" ++ old ++ "\x27 not found"))

/-- The dictionary produced by `Record.serialize`. -/
structure RecordData where
  name : String
  phones : List String
  birthday : Option String
deriving DecidableEq

/-- `Record.serialize()`. -/
def Record.serialize (r : Record) : RecordData :=
  ⟨r.name, r.phones, r.birthday⟩

/-- Fold `add_phone` over a phone list, stopping at the first error
(the `for phone in phones: record.add_phone(phone)` loop). -/
def addPhones (r : Record) (phones : List String) : Except PyError Record :=
  match phones with
  | [] => .ok r
  | p :: rest =>
    match Record.add_phone r (some p) with
    | .ok r1 => addPhones r1 rest
    | .error e => .error e

/-- `Record.deserialize(data)`: rebuild through the validated constructor and
`add_phone`, so invalid persisted values raise `ValueError`. -/
def Record.deserialize (data : RecordData) : Except PyError Record :=
  match Record.mk_init data.name data.birthday with
  | .ok r => addPhones r data.phones
  | .error e => .error e

/-- `Record.__str__`. -/
def recordStr (r : Record) : String :=
  "Contact name: " ++ r.name ++ ", phones: " ++
    String.intercalate ", " r.phones ++ ", birthday: " ++
    (match r.birthday with | none => "None" | some b => b)

/-- `AddressBook.data`: a Python `dict` is insertion-ordered, so it is
embedded as an association list whose update keeps the position of an
existing key. -/
abbrev Book := List (String × Record)

/-- Python `dict.__setitem__`: overwrite in place if the key exists,
otherwise append at the end. -/
def dictSet (book : Book) (k : String) (v : Record) : Book :=
  match book with
  | [] => [(k, v)]
  | (k1, v1) :: rest =>
    if k1 = k then (k, v) :: rest else (k1, v1) :: dictSet rest k v

/-- Python `k in dict` / `dict[k]` lookup. -/
def dictFind (book : Book) (k : String) : Option Record :=
  match book with
  | [] => none
  | (k1, v1) :: rest => if k1 = k then some v1 else dictFind rest k

/-- `AddressBook.add_record(record)`. -/
def add_record (book : Book) (r : Record) : Book :=
  dictSet book r.name r

/-- `AddressBook.delete(name)`: `del self.data[name]` guarded by a
membership check, so an absent name is a no-op. -/
def AddressBook.delete (book : Book) (name : String) : Book :=
  if (dictFind book name).isSome then
    book.eraseP (fun kv => kv.1 == name)
  else book

/-- `AddressBook.search_contacts(query)`: iterate the values in insertion
order, appending each contact whose name or any of whose phones contains the
query as a substring. -/
def search_contacts (book : Book) (query : String) : List Record :=
  book.foldl
    (fun results kv =>
      if pyIn query kv.2.name || kv.2.phones.any (fun p => pyIn query p) then
        results ++ [kv.2]
      else results)
    []

/-- The dict comprehension inside `load_from_file`, building the new
contents record by record; a failing `Record.deserialize` raises. -/
def loadRecords (book : Book) (datas : List RecordData) :
    Except PyError Book :=
  match datas with
  | [] => .ok book
  | data :: rest =>
    match Record.deserialize data with
    | .ok r => loadRecords (dictSet book data.name r) rest
    | .error e => .error e

/-- `AddressBook.load_from_file`, with the external file system and JSON
parser represented by an already-read `Except` value: a read or parse
failure raises; otherwise the in-memory contents are replaced entirely by
the deserialized records keyed by name. -/
def load_from_file (raw : Except PyError (List RecordData)) :
    Except PyError Book :=
  match raw with
  | .error e => .error e
  | .ok datas => loadRecords [] datas

/-- The `except` clauses of the `input_error` decorator, mapping a raised
error to the string the wrapper returns. -/
def input_error_msg (e : PyError) : String :=
  match e with
  | .keyError _ => "Enter user name"
  | .valueError m => m
  | .indexError m =>
    if pyIn "unpack" m then "Give me name and phone please" else "Invalid input"
  | .typeError m => m
  | .ioError m => m
  | .zeroDivisionError => "integer division or modulo by zero"

/-- The classification loop at the top of `add_contact`: an argument
containing a dash is a birthday candidate (kept only when `strptime`
accepts it, the last one winning), any other argument is a phone. -/
def classifyArgs (args : List String) : List String × Option String :=
  args.foldl
    (fun acc arg =>
      if '-' ∈ arg.data then
        if (strptimeYMD arg.data).isSome then (acc.1, some arg) else acc
      else (acc.1 ++ [arg], acc.2))
    ([], none)

/-- Body of `add_contact` before the `input_error` wrapper is applied. -/
def add_contact_inner (book : Book) (name : String) (args : List String) :
    Except PyError (Book × String) :=
  let (phones, birthday) := classifyArgs args
  match Record.mk_init name birthday with
  | .error e => .error e
  | .ok r =>
    match addPhones r phones with
    | .error e => .error e
    | .ok r2 => .ok (add_record book r2, "Contact added successfully")

/-- `add_contact` as seen by the dispatcher: the `input_error` wrapper turns
any raised error into its display string, leaving the book unchanged. -/
def add_contact (book : Book) (name : String) (args : List String) :
    Book × String :=
  match add_contact_inner book name args with
  | .ok res => res
  | .error e => (book, input_error_msg e)

/-- Body of `change_phone` before the `input_error` wrapper is applied.
`record.phones[0]` raises `IndexError` when the phone list is empty. -/
def change_phone_inner (book : Book) (name phone : String) :
    Except PyError (Book × String) :=
  match dictFind book name with
  | some r =>
    if phone = "" then .error (.valueError "Phone is missing")
    else
      match r.phones with
      | [] => .error (.indexError "list index out of range")
      | first :: _ =>
        match Record.edit_phone r first phone with
        | .error e => .error e
        | .ok r2 => .ok (dictSet book name r2, "Phone number updated")
  | none => .error (.valueError ("Contact \x27" ++ name ++ "\x27 not found"))

/-- `change_phone` with the `input_error` wrapper applied. -/
def change_phone (book : Book) (name phone : String) : Book × String :=
  match change_phone_inner book name phone with
  | .ok res => res
  | .error e => (book, input_error_msg e)

/-- Python `repr` of a list of strings, as printed for `phone <name>`. -/
def reprStrList (l : List String) : String :=
  "[" ++ String.intercalate ", " (l.map (fun p => "\x27" ++ p ++ "\x27")) ++ "]"

/-- Body of the module-level `find_phone` before the wrapper. -/
def find_phone_inner (book : Book) (name : String) :
    Except PyError String :=
  match dictFind book name with
  | some r =>
    if r.phones.isEmpty then
      .ok ("No phones found for contact \x27" ++ name ++ "\x27")
    else .ok (reprStrList r.phones)
  | none => .error (.valueError ("Contact \x27" ++ name ++ "\x27 not found"))

/-- `find_phone` with the `input_error` wrapper applied. -/
def find_phone (book : Book) (name : String) : String :=
  match find_phone_inner book name with
  | .ok res => res
  | .error e => input_error_msg e

example :
    add_contact [] "carol" ["12345-6789"] =
      ([("carol", ⟨"carol", [], none⟩)], "Contact added successfully") := by
  decide

example :
    add_contact [] "carol" ["abcdefghij"] =
      ([], "Phone number must be 10 digits") := by decide

example :
    add_contact [] "dave" ["1234567890", "2021-02-30"] =
      ([("dave", ⟨"dave", ["1234567890"], none⟩)],
        "Contact added successfully") := by decide

example :
    add_contact [] "dave" ["1234567890", "1800-05-20"] =
      ([], "Invalid birthday format. Use YYYY-MM-DD") := by decide

/-- Days before January 1 of year `y` since the epoch of day 1 =
0001-01-01, as in CPython `datetime._days_before_year`. -/
def daysBeforeYear (y : Nat) : Nat :=
  (y - 1) * 365 + (y - 1) / 4 - (y - 1) / 100 + (y - 1) / 400

/-- Days in year `y` before the first of month `m`, as in CPython
`datetime._days_before_month`. -/
def daysBeforeMonth (y m : Nat) : Nat :=
  let base :=
    match m with
    | 1 => 0 | 2 => 31 | 3 => 59 | 4 => 90 | 5 => 120 | 6 => 151
    | 7 => 181 | 8 => 212 | 9 => 243 | 10 => 273 | 11 => 304 | _ => 334
  base + (if 2 < m ∧ leapYear y then 1 else 0)

/-- CPython `datetime._ymd2ord`: proleptic Gregorian ordinal of a date. -/
def ymd2ord (y m d : Nat) : Nat :=
  daysBeforeYear y + daysBeforeMonth y m + d

/-- A Python `datetime` value: a calendar date plus a seconds-of-day
component (`datetime.now()` carries the time of day; `datetime(y, m, d)` is
midnight). -/
structure PyDateTime where
  year : Nat
  month : Nat
  day : Nat
  sec : Nat
deriving DecidableEq

/-- The `datetime(year, month, day)` constructor: range-checks its fields
and produces the midnight instant, measured in seconds since the epoch. -/
def mkDatetime (y m d : Nat) : Except PyError Int :=
  if 1 ≤ y ∧ y ≤ 9999 then
    if 1 ≤ m ∧ m ≤ 12 then
      if 1 ≤ d ∧ d ≤ daysInMonth y m then
        .ok ((86400 : Int) * ymd2ord y m d)
      else .error (.valueError "day is out of range for month")
    else .error (.valueError "month must be in 1..12")
  else .error (.valueError "year is out of range")

/-- Instant of a `PyDateTime` in seconds since the epoch. -/
def dtSecs (t : PyDateTime) : Int :=
  (86400 : Int) * ymd2ord t.year t.month t.day + t.sec

/-- `Record.days_to_birthday`, parameterized by `datetime.now()`.
The stored birthday is re-parsed with `strptime`; the candidate birthday is
built at midnight of the current year, moved to the next year when it is
strictly before `now`; the result is `timedelta.days`, i.e. the floor of
the difference in seconds divided by 86400. -/
def days_to_birthday (r : Record) (now : PyDateTime) :
    Except PyError (Option Int) :=
  match r.birthday with
  | none => .ok none
  | some b =>
    match strptimeYMD b.data with
    | none =>
      .error (.valueError ("time data \x27" ++ b ++
        "\x27 does not match format \x27%Y-%m-%d\x27"))
    | some (_, bm, bd) =>
      match mkDatetime now.year bm bd with
      | .error e => .error e
      | .ok cand =>
        if cand < dtSecs now then
          match mkDatetime (now.year + 1) bm bd with
          | .error e => .error e
          | .ok cand2 => .ok (some (Int.fdiv (cand2 - dtSecs now) 86400))
        else .ok (some (Int.fdiv (cand - dtSecs now) 86400))

example :
    days_to_birthday ⟨"x", [], some "1990-05-20"⟩ ⟨2021, 5, 20, 43200⟩ =
      .ok (some 364) := by decide

example :
    days_to_birthday ⟨"x", [], some "1990-05-20"⟩ ⟨2021, 5, 20, 0⟩ =
      .ok (some 0) := by decide

example :
    days_to_birthday ⟨"x", [], some "1990-05-21"⟩ ⟨2021, 5, 20, 43200⟩ =
      .ok (some 0) := by decide

example :
    days_to_birthday ⟨"x", [], none⟩ ⟨2021, 5, 20, 43200⟩ = .ok none := by
  decide

/-- Whitespace tokenizer: `acc` is the current token, reversed. -/
def tokenizeAux : List Char → List Char → List (List Char)
  | [], acc => if acc = [] then [] else [acc.reverse]
  | c :: rest, acc =>
    if c.isWhitespace then
      if acc = [] then tokenizeAux rest []
      else acc.reverse :: tokenizeAux rest []
    else tokenizeAux rest (c :: acc)

/-- Python `str.split()` with no argument: split on whitespace runs,
dropping empty tokens. -/
def pySplit (s : String) : List String :=
  (tokenizeAux s.data []).map String.mk

/-- Python `str.startswith`. -/
def pyStartswith (s pre : String) : Bool :=
  pre.data.isPrefixOf s.data

/-- Python `str.lower()` (ASCII case folding, as used on command lines). -/
def pyLower (s : String) : String :=
  String.mk (s.data.map Char.toLower)

/-- Python `str(e)` for a raised exception, as printed by the
`except Exception as e: print(e)` blocks in `main`. -/
def exceptionStr : PyError → String
  | .valueError m => m
  | .keyError m => "\x27" ++ m ++ "\x27"
  | .indexError m => m
  | .typeError m => m
  | .ioError m => m
  | .zeroDivisionError => "integer division or modulo by zero"

/-- `show_all_contacts()`. -/
def show_all_contacts (book : Book) : String :=
  match book with
  | [] => "No contacts found"
  | _ => String.intercalate "\n" (book.map (fun kv => recordStr kv.2))

/-- The lines printed inside the `for idx, r in enumerate(result)` loop of
`show_contacts_batch`: each record, with a pause prompt after every full
batch except at the very end. -/
def batchPrints (strs : List String) (bs : Nat) : List String :=
  strs.enum.foldl
    (fun acc p =>
      acc ++ [p.2] ++
        (if (p.1 + 1) % bs = 0 ∧ p.1 < strs.length - 1 then
          ["Press Enter to continue..."]
        else []))
    []

/-- `show_contacts_batch(batch_size)`: the printed lines plus the returned
string (over whose characters `main` then iterates).  A zero batch size
with a non-empty book raises `ZeroDivisionError` at `(idx + 1) % 0`. -/
def show_contacts_batch (book : Book) (bs : Nat) :
    Except PyError (List String × String) :=
  match book with
  | [] => .ok ([], "No contacts found")
  | _ =>
    if bs = 0 then .error .zeroDivisionError
    else .ok (batchPrints (book.map (fun kv => recordStr kv.2)) bs, "")

/-- The body of the `delete` branch of `main`: `AddressBook.delete` never
raises, so the success message is printed whether or not the name was
present (the `except KeyError` clause is dead code). -/
def delete_branch (book : Book) (name : String) : Book × String :=
  (AddressBook.delete book name,
    "Contact \x27" ++ name ++ "\x27 deleted successfully")

/-- The external collaborators of one loop iteration: the filename typed at
the `save`/`load` prompt, the outcome of reading and JSON-parsing that file,
the outcome of opening it for writing, and `datetime.now()`. -/
structure Env where
  filename : String
  fileData : Except PyError (List RecordData)
  saveResult : Except PyError Unit
  now : PyDateTime

/-- One iteration of the `while True` loop in `main`, applied to the
already-lowercased command line.  The result is the new address book, the
printed lines, and whether the loop continues; `.error e` means the
exception `e` is not caught anywhere and terminates the loop (and the
process). -/
def dispatch (cmd : String) (book : Book) (env : Env) :
    Except PyError (Book × List String × Bool) :=
  if cmd == "hello" then .ok (book, ["How can I help you?"], true)
  else if pyStartswith cmd "add " then
    match pySplit cmd with
    | _ :: name :: phone :: bday :: _ =>
      let (b2, msg) := add_contact book name [phone, bday]
      .ok (b2, [msg], true)
    | [_, name, phone] =>
      let (b2, msg) := add_contact book name [phone]
      .ok (b2, [msg], true)
    | _ => .ok (book, ["Enter at least name and phone"], true)
  else if pyStartswith cmd "change " then
    match pySplit cmd with
    | _ :: name :: phoneToks =>
      let (b2, msg) := change_phone book name (String.intercalate " " phoneToks)
      .ok (b2, [msg], true)
    | _ =>
      .error (.valueError "not enough values to unpack (expected at least 2, got 1)")
  else if pyStartswith cmd "phone " then
    match pySplit cmd with
    | [_, name] => .ok (book, [find_phone book name], true)
    | toks =>
      if toks.length < 2 then
        .error (.valueError "not enough values to unpack (expected 2, got 1)")
      else .error (.valueError "too many values to unpack (expected 2)")
  else if cmd == "show all" then .ok (book, [show_all_contacts book], true)
  else if pyStartswith cmd "birthday " then
    match pySplit cmd with
    | [_, name] =>
      match dictFind book name with
      | some r =>
        match days_to_birthday r env.now with
        | .ok v =>
          .ok (book,
            [match v with | none => "None" | some n => toString n], true)
        | .error e => .ok (book, [exceptionStr e], true)
      | none =>
        .ok (book, ["Contact \x27" ++ name ++ "\x27 not found"], true)
    | toks =>
      if toks.length < 2 then
        .error (.valueError "not enough values to unpack (expected 2, got 1)")
      else .error (.valueError "too many values to unpack (expected 2)")
  else if pyStartswith cmd "delete " then
    match pySplit cmd with
    | [_, name] =>
      let (b2, msg) := delete_branch book name
      .ok (b2, [msg], true)
    | toks =>
      if toks.length < 2 then
        .error (.valueError "not enough values to unpack (expected 2, got 1)")
      else .error (.valueError "too many values to unpack (expected 2)")
  else if pyStartswith cmd "show batch" then
    match pySplit cmd with
    | [_, _, n] =>
      if n.data.all Char.isDigit && decide (n ≠ "") then
        match show_contacts_batch book (digitsToNat n.data) with
        | .ok (prints, ret) =>
          .ok (book, prints ++ ret.data.map String.singleton, true)
        | .error e => .error e
      else
        .ok (book,
          ["Invalid \x27show batch\x27 command. Use \x27show batch N\x27, where N is the batch size."],
          true)
    | _ =>
      .ok (book,
        ["Invalid \x27show batch\x27 command. Use \x27show batch N\x27, where N is the batch size."],
        true)
  else if cmd == "save" then
    match env.saveResult with
    | .ok _ => .ok (book, ["Address book saved to " ++ env.filename], true)
    | .error e => .error e
  else if cmd == "load" then
    match load_from_file env.fileData with
    | .ok newBook => .ok (newBook, ["Address book loaded successfully"], true)
    | .error e => .error e
  else if pyStartswith cmd "search " then
    let query := String.mk (cmd.data.drop 7)
    match search_contacts book query with
    | [] =>
      .ok (book, ["No contacts found matching \x27" ++ query ++ "\x27"], true)
    | results => .ok (book, results.map recordStr, true)
  else if cmd == "good bye" || cmd == "close" || cmd == "exit" then
    .ok (book, ["Good bye!"], false)
  else .ok (book, ["Invalid command. Please try again"], true)

/-- One loop iteration on the raw input line: `main` lowercases the line
before dispatching on it. -/
def processLine (line : String) (book : Book) (env : Env) :
    Except PyError (Book × List String × Bool) :=
  dispatch (pyLower line) book env

/-- A concrete environment in which the `load`/`save` file operations fail
with an I/O error, used to exhibit uncaught exceptions. -/
def envIOFail : Env :=
  ⟨"contacts.json",
    .error (.ioError
      "[Errno 2] No such file or directory: \x27contacts.json\x27"),
    .error (.ioError
      "[Errno 13] Permission denied: \x27contacts.json\x27"),
    ⟨2021, 5, 20, 43200⟩⟩

/-- A concrete environment in which the file operations succeed. -/
def envOk : Env :=
  ⟨"contacts.json", .ok [], .ok (), ⟨2021, 5, 20, 43200⟩⟩

example :
    processLine "load" [] envIOFail =
      .error (.ioError
        "[Errno 2] No such file or directory: \x27contacts.json\x27") := by
  decide

example :
    processLine "delete ghost" [] envOk =
      .ok ([], ["Contact \x27ghost\x27 deleted successfully"], true) := by
  decide

example :
    processLine "add carol abcdefghij" [] envOk =
      .ok ([], ["Phone number must be 10 digits"], true) := by decide

example :
    processLine "change carol 5" [("carol", ⟨"carol", [], none⟩)] envOk =
      .ok ([("carol", ⟨"carol", [], none⟩)], ["Invalid input"], true) := by
  decide

lemma no_dash_of_valid_phone (p : String) (h : validate_phone_str p = true) :
    '-' ∉ p.data := by
  intro hmem
  simp only [validate_phone_str, Bool.and_eq_true, List.all_eq_true] at h
  exact absurd (h.2 '-' hmem) (by decide)

lemma classifyArgs_single_phone (phone : String) (h : '-' ∉ phone.data) :
    classifyArgs [phone] = ([phone], none) := by
  simp [classifyArgs, h]

lemma classifyArgs_phone_badbday (phone t : String) (h : '-' ∉ phone.data)
    (ht : '-' ∈ t.data) (hp : strptimeYMD t.data = none) :
    classifyArgs [phone, t] = ([phone], none) := by
  simp [classifyArgs, h, ht, hp]

lemma classifyArgs_phone_bday (phone t : String) (h : '-' ∉ phone.data)
    (ht : '-' ∈ t.data) (y m d : Nat) (hp : strptimeYMD t.data = some (y, m, d)) :
    classifyArgs [phone, t] = ([phone], some t) := by
  simp [classifyArgs, h, ht, hp]

/-- C3, counterexample: the claim says `Phone.validate` returns false
(without failing) on a null value, but `len(None)` raises `TypeError`. -/
theorem C3_counterexample :
    validate_phone none =
      .error (.typeError "object of type \x27NoneType\x27 has no len()") := by
  decide

/-- C3 (amended): for every non-null string, `Phone.validate` is true iff
the string has length exactly 10 and every character is a decimal digit;
for a null value it raises `TypeError` (callers guard against null first). -/
theorem C3_phone_validation (s : String) :
    (validate_phone (some s) = .ok true ↔
      s.length = 10 ∧ ∀ c ∈ s.data, c.isDigit = true) ∧
    validate_phone none =
      .error (.typeError "object of type \x27NoneType\x27 has no len()") := by
  refine ⟨?_, rfl⟩
  have hlen : s.length = s.data.length := rfl
  rw [hlen]
  simp [validate_phone, validate_phone_str, List.all_eq_true]

/-- C4, counterexample: `add carol 12345-6789` has a phone argument that
fails `Phone.validate`, yet the command succeeds and creates a record
(the dash makes `add_contact` treat the argument as a birthday candidate). -/
theorem C4_counterexample :
    validate_phone_str "12345-6789" = false ∧
    add_contact [] "carol" ["12345-6789"] =
      ([("carol", ⟨"carol", [], none⟩)], "Contact added successfully") := by
  decide

/-- C4 (amended): for every `add` command whose phone argument contains no
dash and fails `Phone.validate`, the result is the message
"Phone number must be 10 digits" and the address book is unchanged. -/
theorem C4_add_invalid_phone (book : Book) (name phone : String)
    (hnd : '-' ∉ phone.data) (hv : validate_phone_str phone = false) :
    add_contact book name [phone] = (book, "Phone number must be 10 digits") := by
  unfold add_contact add_contact_inner
  rw [classifyArgs_single_phone phone hnd]
  simp [Record.mk_init, addPhones, Record.add_phone, hv, input_error_msg]

theorem C4_add_invalid_phone_witness :
    add_contact [] "carol" ["abcdefghij"] =
      ([], "Phone number must be 10 digits") :=
  C4_add_invalid_phone [] "carol" "abcdefghij" (by decide) (by decide)

/-- C5, counterexample: `add dave 1234567890 2021-02-30` has a valid phone
and an invalid birthday token, yet no `ValidationError` is raised: the
unparseable token is silently dropped and the record is inserted. -/
theorem C5_counterexample :
    validate_phone_str "1234567890" = true ∧
    validate_birthday "2021-02-30" = false ∧
    add_contact [] "dave" ["1234567890", "2021-02-30"] =
      ([("dave", ⟨"dave", ["1234567890"], none⟩)],
        "Contact added successfully") := by
  decide

/-- C5 (amended): with a valid phone, a birthday token containing a dash
that `strptime` rejects is silently ignored and the record is inserted with
the phone and no birthday; a token `strptime` accepts but whose fields fail
the range check raises `ValueError` and no record is inserted. -/
theorem C5_add_bad_birthday (book : Book) (name phone t : String)
    (hp : validate_phone_str phone = true) (ht : '-' ∈ t.data) :
    (strptimeYMD t.data = none →
      add_contact book name [phone, t] =
        (dictSet book name ⟨name, [phone], none⟩,
          "Contact added successfully")) ∧
    (∀ y m d, strptimeYMD t.data = some (y, m, d) →
      validate_birthday t = false →
      add_contact book name [phone, t] =
        (book, "Invalid birthday format. Use YYYY-MM-DD")) := by
  have hnd := no_dash_of_valid_phone phone hp
  constructor
  · intro hnone
    unfold add_contact add_contact_inner
    rw [classifyArgs_phone_badbday phone t hnd ht hnone]
    simp [Record.mk_init, addPhones, Record.add_phone, hp, add_record]
  · intro y m d hsome hvb
    unfold add_contact add_contact_inner
    rw [classifyArgs_phone_bday phone t hnd ht y m d hsome]
    simp [Record.mk_init, hvb, input_error_msg]

theorem C5_add_bad_birthday_witness :
    add_contact [] "eve" ["1234567890", "2021-02-31"] =
      (dictSet [] "eve" ⟨"eve", ["1234567890"], none⟩,
        "Contact added successfully") ∧
    add_contact [] "eve" ["1234567890", "1800-05-20"] =
      ([], "Invalid birthday format. Use YYYY-MM-DD") :=
  ⟨(C5_add_bad_birthday [] "eve" "1234567890" "2021-02-31" (by decide)
      (by decide)).1 (by decide),
   (C5_add_bad_birthday [] "eve" "1234567890" "1800-05-20" (by decide)
      (by decide)).2 1800 5 20 (by decide) (by decide)⟩

/-- C2, counterexample: a `load` command whose file read fails with an I/O
error is not caught anywhere in `main`: the exception escapes the dispatch
loop and terminates the process, contradicting the claim that every error
is converted to a printed message. -/
theorem C2_counterexample :
    processLine "load" [] envIOFail =
      .error (.ioError
        "[Errno 2] No such file or directory: \x27contacts.json\x27") := by
  decide

/-- C2 (amended): errors raised inside the wrapped handlers are caught at
the dispatch boundary and become printed messages with the book unchanged,
and such an erroring command leaves the loop running; but errors from the
`save` and `load` file operations propagate uncaught and terminate the
loop. -/
theorem C2_error_boundary (book : Book) (env : Env) :
    (∀ e, env.fileData = .error e → dispatch "load" book env = .error e) ∧
    (∀ e, env.saveResult = .error e → dispatch "save" book env = .error e) ∧
    (∀ name args e, add_contact_inner book name args = .error e →
      add_contact book name args = (book, input_error_msg e)) ∧
    (∀ name phone e, change_phone_inner book name phone = .error e →
      change_phone book name phone = (book, input_error_msg e)) ∧
    dispatch "add carol abcdefghij" book env =
      .ok (book, ["Phone number must be 10 digits"], true) := by
  obtain ⟨fn, fd, sr, nw⟩ := env
  refine ⟨?_, ?_, ?_, ?_, ?_⟩
  · intro e he
    have he2 : fd = .error e := he
    subst he2
    rfl
  · intro e he
    have he2 : sr = .error e := he
    subst he2
    rfl
  · intro name args e h
    unfold add_contact
    rw [h]
  · intro name phone e h
    unfold change_phone
    rw [h]
  · rfl

theorem C2_error_boundary_witness :
    dispatch "save" [] envIOFail =
      .error (.ioError
        "[Errno 13] Permission denied: \x27contacts.json\x27") ∧
    dispatch "add carol abcdefghij" [] envOk =
      .ok ([], ["Phone number must be 10 digits"], true) :=
  ⟨(C2_error_boundary [] envIOFail).2.1 _ rfl,
   (C2_error_boundary [] envOk).2.2.2.2⟩

/-- C6, counterexample: deleting an absent name does not report "not
found": the dispatcher unconditionally prints the success message. -/
theorem C6_counterexample :
    processLine "delete ghost" [] envOk =
      .ok ([], ["Contact \x27ghost\x27 deleted successfully"], true) ∧
    "Contact \x27ghost\x27 deleted successfully" ≠
      "Contact \x27ghost\x27 not found" := by
  decide

lemma dictFind_append_cons (pre post : Book) (name : String) (r : Record)
    (hpre : ∀ kv ∈ pre, kv.1 ≠ name) :
    dictFind (pre ++ (name, r) :: post) name = some r := by
  induction pre with
  | nil => simp [dictFind]
  | cons hd tl ih =>
    have hne : hd.1 ≠ name := hpre hd (by simp)
    simp only [List.cons_append, dictFind, if_neg hne]
    exact ih (fun kv h => hpre kv (by simp [h]))

/-- C6 (amended): `delete <name>` always prints the success message, even
for an absent name (never a not-found report); an absent name leaves the
book unchanged, and a present name removes exactly that entry. -/
theorem C6_delete (book : Book) (name : String) :
    delete_branch book name =
      (AddressBook.delete book name,
        "Contact \x27" ++ name ++ "\x27 deleted successfully") ∧
    (dictFind book name = none → AddressBook.delete book name = book) ∧
    (∀ r pre post, book = pre ++ (name, r) :: post →
      (∀ kv ∈ pre, kv.1 ≠ name) →
      AddressBook.delete book name = pre ++ post) := by
  refine ⟨rfl, ?_, ?_⟩
  · intro h
    simp [AddressBook.delete, h]
  · intro r pre post hb hpre
    subst hb
    have hf := dictFind_append_cons pre post name r hpre
    simp only [AddressBook.delete, hf, Option.isSome_some, if_pos]
    rw [List.eraseP_append_right _ (by
      intro b hb2
      simp only [beq_iff_eq]
      exact hpre b hb2)]
    rw [List.eraseP_cons_of_pos (by simp)]

theorem C6_delete_witness :
    AddressBook.delete
        [("a", ⟨"a", [], none⟩), ("b", ⟨"b", [], none⟩)] "b" =
      [("a", ⟨"a", [], none⟩)] ∧
    AddressBook.delete [("a", ⟨"a", [], none⟩)] "z" =
      [("a", ⟨"a", [], none⟩)] :=
  ⟨(C6_delete [("a", ⟨"a", [], none⟩), ("b", ⟨"b", [], none⟩)] "b").2.2
      ⟨"b", [], none⟩ [("a", ⟨"a", [], none⟩)] [] rfl (by decide),
   (C6_delete [("a", ⟨"a", [], none⟩)] "z").2.1 (by decide)⟩

/-- C10 (confirmed): a `change` command for a present name whose record has
an empty phone list hits `record.phones[0]`, which raises `IndexError`; the
`input_error` boundary converts it to the printed string "Invalid input",
the book is unchanged, and the loop continues. -/
theorem C10_change_empty_phonelist :
    (∀ (book : Book) (name phone : String) (r : Record),
      dictFind book name = some r → r.phones = [] → phone ≠ "" →
      change_phone book name phone = (book, "Invalid input")) ∧
    (∀ (book : Book) (r : Record) (env : Env),
      dictFind book "carol" = some r → r.phones = [] →
      processLine "change carol 5" book env =
        .ok (book, ["Invalid input"], true)) := by
  have main : ∀ (book : Book) (name phone : String) (r : Record),
      dictFind book name = some r → r.phones = [] → phone ≠ "" →
      change_phone book name phone = (book, "Invalid input") := by
    intro book name phone r hf hp hne
    have hunpack : pyIn "unpack" "list index out of range" = false := by decide
    unfold change_phone change_phone_inner
    rw [hf]
    simp [hne, hp, input_error_msg, hunpack]
  refine ⟨main, ?_⟩
  intro book r env hf hp
  have hcp := main book "carol" "5" r hf hp (by decide)
  have h2 : processLine "change carol 5" book env =
      .ok ((change_phone book "carol" "5").1,
        [(change_phone book "carol" "5").2], true) := rfl
  rw [h2, hcp]

theorem C10_change_empty_phonelist_witness :
    change_phone [("carol", ⟨"carol", [], none⟩)] "carol" "5" =
      ([("carol", ⟨"carol", [], none⟩)], "Invalid input") ∧
    processLine "change carol 5" [("carol", ⟨"carol", [], none⟩)] envOk =
      .ok ([("carol", ⟨"carol", [], none⟩)], ["Invalid input"], true) :=
  ⟨C10_change_empty_phonelist.1 _ "carol" "5" ⟨"carol", [], none⟩
      (by decide) rfl (by decide),
   C10_change_empty_phonelist.2 _ ⟨"carol", [], none⟩ envOk (by decide) rfl⟩

/-- The selection criterion of the spec for `search(query)`, stated
declaratively: the query is a substring of the record name, or of some
phone value. -/
def matchesQuery (query : String) (r : Record) : Prop :=
  List.IsInfix query.data r.name.data ∨
    ∃ p ∈ r.phones, List.IsInfix query.data p.data

instance matchesQueryDec (query : String) (r : Record) :
    Decidable (matchesQuery query r) := by
  unfold matchesQuery
  exact inferInstance

lemma search_foldl_aux (query : String) (book : Book) (acc : List Record) :
    book.foldl
      (fun results kv =>
        if pyIn query kv.2.name || kv.2.phones.any (fun p => pyIn query p)
        then results ++ [kv.2]
        else results)
      acc =
    acc ++ (book.map Prod.snd).filter (fun r => decide (matchesQuery query r)) := by
  induction book generalizing acc with
  | nil => simp
  | cons hd tl ih =>
    have hcond :
        (pyIn query hd.2.name || hd.2.phones.any (fun p => pyIn query p)) =
          decide (matchesQuery query hd.2) := by
      rw [Bool.eq_iff_iff]
      simp [pyIn, matchesQuery, List.any_eq_true]
    simp only [List.foldl_cons, List.map_cons, List.filter_cons, hcond]
    by_cases h : matchesQuery query hd.2
    · simp only [h, decide_eq_true_eq, if_pos, ih]
      simp [h]
    · simp only [ih]
      simp [h]

/-- C9 (confirmed): `search(query)` returns exactly the records whose name
or some phone contains the query as a substring (case-sensitive, no
normalization), in insertion order — it equals the order-preserving filter
of the book values by the spec criterion, and membership in the result is
equivalent to being a matching book value. -/
theorem C9_search (book : Book) (query : String) :
    search_contacts book query =
      (book.map Prod.snd).filter (fun r => decide (matchesQuery query r)) ∧
    ∀ r, r ∈ search_contacts book query ↔
      r ∈ book.map Prod.snd ∧ matchesQuery query r := by
  have hmain := search_foldl_aux query book []
  constructor
  · simpa [search_contacts] using hmain
  · intro r
    rw [show search_contacts book query =
        (book.map Prod.snd).filter (fun r => decide (matchesQuery query r))
      from by simpa [search_contacts] using hmain]
    simp [List.mem_filter]

lemma addPhones_ok (ps : List String) (r : Record)
    (h : ∀ p ∈ ps, validate_phone_str p = true) :
    addPhones r ps = .ok { r with phones := r.phones ++ ps } := by
  induction ps generalizing r with
  | nil => simp [addPhones]
  | cons p rest ih =>
    have hp : validate_phone_str p = true := h p (by simp)
    rw [addPhones]
    simp only [Record.add_phone, hp, if_pos]
    rw [ih _ (fun q hq => h q (by simp [hq]))]
    simp

lemma addPhones_error (ps : List String) (r : Record)
    (h : ∃ p ∈ ps, validate_phone_str p = false) :
    addPhones r ps = .error (.valueError "Phone number must be 10 digits") := by
  induction ps generalizing r with
  | nil => simp at h
  | cons p rest ih =>
    rw [addPhones]
    by_cases hp : validate_phone_str p = true
    · simp only [Record.add_phone, hp, if_pos]
      apply ih
      rcases h with ⟨q, hq, hqv⟩
      rcases List.mem_cons.1 hq with rfl | hq2
      · rw [hp] at hqv
        exact absurd hqv (by decide)
      · exact ⟨q, hq2, hqv⟩
    · have hp2 : validate_phone_str p = false := by
        cases hval : validate_phone_str p
        · rfl
        · exact absurd hval hp
      simp [Record.add_phone, hp2]

/-- C7 (confirmed): for every record with validated phones and a validated
(or absent) birthday, `deserialize (serialize r)` reproduces the record
exactly — same name, same phone list in order, same birthday — and
deserializing data with an invalid birthday or an invalid phone raises
`ValueError` through the same validated construction path. -/
theorem C7_roundtrip (r : Record)
    (hb : r.birthday = none ∨
      ∃ b, r.birthday = some b ∧ validate_birthday b = true)
    (hp : ∀ p ∈ r.phones, validate_phone_str p = true) :
    Record.deserialize (Record.serialize r) = .ok r ∧
    (∀ data : RecordData,
      (∃ b, data.birthday = some b ∧ validate_birthday b = false) →
      Record.deserialize data =
        .error (.valueError "Invalid birthday format. Use YYYY-MM-DD")) ∧
    (∀ data : RecordData,
      (data.birthday = none ∨
        ∃ b, data.birthday = some b ∧ validate_birthday b = true) →
      (∃ p ∈ data.phones, validate_phone_str p = false) →
      Record.deserialize data =
        .error (.valueError "Phone number must be 10 digits")) := by
  refine ⟨?_, ?_, ?_⟩
  · have hmk : Record.mk_init r.name r.birthday = .ok ⟨r.name, [], r.birthday⟩ := by
      rcases hb with h | ⟨b, hb1, hb2⟩
      · rw [h]
        rfl
      · rw [hb1]
        simp [Record.mk_init, hb2]
    unfold Record.deserialize Record.serialize
    simp only [hmk]
    rw [addPhones_ok _ _ hp]
    simp
  · intro data ⟨b, hb1, hb2⟩
    unfold Record.deserialize
    rw [hb1]
    simp [Record.mk_init, hb2]
  · intro data hdb hbad
    have hmk : Record.mk_init data.name data.birthday =
        .ok ⟨data.name, [], data.birthday⟩ := by
      rcases hdb with h | ⟨b, hb1, hb2⟩
      · rw [h]
        rfl
      · rw [hb1]
        simp [Record.mk_init, hb2]
    unfold Record.deserialize
    simp only [hmk]
    rw [addPhones_error _ _ hbad]

theorem C7_roundtrip_witness :
    Record.deserialize
        (Record.serialize ⟨"alice", ["1234567890"], some "1990-05-20"⟩) =
      .ok ⟨"alice", ["1234567890"], some "1990-05-20"⟩ :=
  (C7_roundtrip ⟨"alice", ["1234567890"], some "1990-05-20"⟩
    (Or.inr ⟨"1990-05-20", rfl, by decide⟩) (by decide)).1

/-- The decimal digit character for `k % 10`. -/
def natDigit (k : Nat) : Char :=
  Char.ofNat (48 + k % 10)

/-- Two-digit zero-padded decimal rendering (`MM` / `DD`). -/
def pad2 (n : Nat) : List Char :=
  [natDigit (n / 10), natDigit n]

/-- Four-digit zero-padded decimal rendering (`YYYY`). -/
def pad4 (n : Nat) : List Char :=
  [natDigit (n / 1000), natDigit (n / 100), natDigit (n / 10), natDigit n]

/-- The spec's "`YYYY-MM-DD` form" for a numeric date, zero-padded. -/
def fmtDate (y m d : Nat) : String :=
  String.mk (pad4 y ++ '-' :: (pad2 m ++ '-' :: pad2 d))

lemma natDigit_cases (k : Nat) :
    natDigit k = '0' ∨ natDigit k = '1' ∨ natDigit k = '2' ∨
    natDigit k = '3' ∨ natDigit k = '4' ∨ natDigit k = '5' ∨
    natDigit k = '6' ∨ natDigit k = '7' ∨ natDigit k = '8' ∨
    natDigit k = '9' := by
  unfold natDigit
  have h : k % 10 = 0 ∨ k % 10 = 1 ∨ k % 10 = 2 ∨ k % 10 = 3 ∨ k % 10 = 4 ∨
      k % 10 = 5 ∨ k % 10 = 6 ∨ k % 10 = 7 ∨ k % 10 = 8 ∨ k % 10 = 9 := by
    omega
  rcases h with h|h|h|h|h|h|h|h|h|h <;> rw [h] <;> simp

lemma natDigit_isDigit (k : Nat) : (natDigit k).isDigit = true := by
  rcases natDigit_cases k with h|h|h|h|h|h|h|h|h|h <;> rw [h] <;> decide

lemma natDigit_ne_dash (k : Nat) : natDigit k ≠ '-' := by
  rcases natDigit_cases k with h|h|h|h|h|h|h|h|h|h <;> rw [h] <;> decide

lemma natDigit_toNat (k : Nat) : (natDigit k).toNat = 48 + k % 10 := by
  have h : k % 10 = 0 ∨ k % 10 = 1 ∨ k % 10 = 2 ∨ k % 10 = 3 ∨ k % 10 = 4 ∨
      k % 10 = 5 ∨ k % 10 = 6 ∨ k % 10 = 7 ∨ k % 10 = 8 ∨ k % 10 = 9 := by
    omega
  unfold natDigit
  rcases h with h|h|h|h|h|h|h|h|h|h <;> rw [h] <;> decide

lemma digitsToNat_pad2 (n : Nat) (h : n < 100) : digitsToNat (pad2 n) = n := by
  simp only [digitsToNat, pad2, List.foldl_cons, List.foldl_nil, natDigit_toNat]
  omega

lemma digitsToNat_pad4 (n : Nat) (h : n < 10000) :
    digitsToNat (pad4 n) = n := by
  simp only [digitsToNat, pad4, List.foldl_cons, List.foldl_nil, natDigit_toNat]
  omega

lemma splitDash_no_dash (l : List Char) (h : ∀ c ∈ l, c ≠ '-') :
    splitDash l = [l] := by
  induction l with
  | nil => rfl
  | cons c t ih =>
    have hc : c ≠ '-' := h c (by simp)
    simp only [splitDash, if_neg hc]
    rw [ih (fun x hx => h x (by simp [hx]))]

lemma splitDash_append (l rest : List Char) (h : ∀ c ∈ l, c ≠ '-') :
    splitDash (l ++ '-' :: rest) = l :: splitDash rest := by
  induction l with
  | nil => simp [splitDash]
  | cons c t ih =>
    have hc : c ≠ '-' := h c (by simp)
    simp only [List.cons_append, splitDash, if_neg hc, List.append_eq]
    rw [ih (fun x hx => h x (by simp [hx]))]

lemma pad2_no_dash (n : Nat) : ∀ c ∈ pad2 n, c ≠ '-' := by
  intro c hc
  simp only [pad2, List.mem_cons, List.not_mem_nil, or_false] at hc
  rcases hc with rfl | rfl <;> exact natDigit_ne_dash _

lemma pad4_no_dash (n : Nat) : ∀ c ∈ pad4 n, c ≠ '-' := by
  intro c hc
  simp only [pad4, List.mem_cons, List.not_mem_nil, or_false] at hc
  rcases hc with rfl | rfl | rfl | rfl <;> exact natDigit_ne_dash _

lemma strptimeYMD_fmtDate (y m d : Nat) (hy : 1 ≤ y) (hy2 : y ≤ 9999)
    (hm : 1 ≤ m) (hm2 : m ≤ 12) (hd : 1 ≤ d) (hd2 : d ≤ 31) :
    strptimeYMD (fmtDate y m d).data =
      (if d ≤ daysInMonth y m then some (y, m, d) else none) := by
  have hdata : (fmtDate y m d).data = pad4 y ++ '-' :: (pad2 m ++ '-' :: pad2 d) := rfl
  rw [hdata]
  unfold strptimeYMD
  rw [splitDash_append _ _ (pad4_no_dash y),
    splitDash_append _ _ (pad2_no_dash m), splitDash_no_dash _ (pad2_no_dash d)]
  have hyc : yearComponentOk (pad4 y) = true := by
    simp [yearComponentOk, pad4, natDigit_isDigit]
  have hmc : monthComponentOk (pad2 m) = true := by
    have hdig : digitsToNat (pad2 m) = m := digitsToNat_pad2 m (by omega)
    simp only [monthComponentOk, hdig]
    simp [pad2, natDigit_isDigit]
    omega
  have hdc : dayComponentOk (pad2 d) = true := by
    have hdig : digitsToNat (pad2 d) = d := digitsToNat_pad2 d (by omega)
    simp only [dayComponentOk, hdig]
    simp [pad2, natDigit_isDigit]
    omega
  simp only [hyc, hmc, hdc, Bool.and_self, if_pos,
    digitsToNat_pad4 y (by omega), digitsToNat_pad2 m (by omega),
    digitsToNat_pad2 d (by omega)]
  by_cases hdim : d ≤ daysInMonth y m
  · simp [hdim, hy, hy2]
  · simp [hdim]

/-- C1, counterexample: the claim says `Birthday.validate("2021-02-30")`
returns true under the lenient policy, but `strptime` rejects February 30,
so it returns false. -/
theorem C1_counterexample : validate_birthday "2021-02-30" = false := by
  decide

/-- C1 (amended): for a `YYYY-MM-DD` string with year in [1900,2100], month
in [1,12] and day in [1,31], `Birthday.validate` returns true exactly when
the day exists in that month and year (the `strptime` call checks the
calendar, so the policy is not lenient about month length). -/
theorem C1_birthday_validation (y m d : Nat) (hy : 1900 ≤ y) (hy2 : y ≤ 2100)
    (hm : 1 ≤ m) (hm2 : m ≤ 12) (hd : 1 ≤ d) (hd2 : d ≤ 31) :
    validate_birthday (fmtDate y m d) = true ↔ d ≤ daysInMonth y m := by
  unfold validate_birthday
  rw [strptimeYMD_fmtDate y m d (by omega) (by omega) hm hm2 hd hd2]
  by_cases hdim : d ≤ daysInMonth y m
  · simp only [hdim, if_pos]
    simp [hy, hy2, hm, hm2, hd, hd2, hdim]
  · simp [hdim]

theorem C1_birthday_validation_witness :
    fmtDate 2021 2 28 = "2021-02-28" ∧
    validate_birthday (fmtDate 2021 2 28) = true :=
  ⟨by decide,
   (C1_birthday_validation 2021 2 28 (by decide) (by decide) (by decide)
      (by decide) (by decide) (by decide)).mpr (by decide)⟩

lemma dbm_add_dim_le (y m : Nat) (hm : 1 ≤ m) (hm2 : m ≤ 12) :
    daysBeforeMonth y m + daysInMonth y m ≤
      365 + (if leapYear y then 1 else 0) := by
  have hcase : m = 1 ∨ m = 2 ∨ m = 3 ∨ m = 4 ∨ m = 5 ∨ m = 6 ∨ m = 7 ∨
      m = 8 ∨ m = 9 ∨ m = 10 ∨ m = 11 ∨ m = 12 := by omega
  rcases hcase with rfl|rfl|rfl|rfl|rfl|rfl|rfl|rfl|rfl|rfl|rfl|rfl <;>
    cases hl : leapYear y <;>
      simp [daysBeforeMonth, daysInMonth, hl]

lemma leapYear_eq_decide (y : Nat) :
    leapYear y = decide ((y % 4 = 0 ∧ ¬ y % 100 = 0) ∨ y % 400 = 0) := by
  rw [Bool.eq_iff_iff]
  simp [leapYear]

lemma daysBeforeYear_succ (y : Nat) (hy : 1 ≤ y) :
    daysBeforeYear (y + 1) =
      daysBeforeYear y + 365 + (if leapYear y then 1 else 0) := by
  obtain ⟨z, rfl⟩ : ∃ z, y = z + 1 := ⟨y - 1, by omega⟩
  have h4 := Nat.succ_div z 4
  have h100 := Nat.succ_div z 100
  have h400 := Nat.succ_div z 400
  rw [leapYear_eq_decide]
  unfold daysBeforeYear
  simp only [Nat.add_sub_cancel]
  simp only [Nat.dvd_iff_mod_eq_zero] at h4 h100 h400
  rw [h4, h100, h400]
  by_cases c4 : (z + 1) % 4 = 0 <;> by_cases c100 : (z + 1) % 100 = 0 <;>
    by_cases c400 : (z + 1) % 400 = 0 <;>
      simp only [c4, c100, c400] <;>
      first
        | omega
        | (simp; omega)

lemma ymd2ord_lt_next_year (ty tm td bm bd : Nat) (hty : 1 ≤ ty)
    (htm : 1 ≤ tm ∧ tm ≤ 12) (htd : 1 ≤ td ∧ td ≤ daysInMonth ty tm)
    (hbd : 1 ≤ bd) :
    ymd2ord ty tm td < ymd2ord (ty + 1) bm bd := by
  have h1 := dbm_add_dim_le ty tm htm.1 htm.2
  have h2 := daysBeforeYear_succ ty hty
  have h3 : (0 : Nat) ≤ daysBeforeMonth (ty + 1) bm := Nat.zero_le _
  unfold ymd2ord
  omega

/-- C8, counterexample: on the birthday itself (stored 1990-05-20, current
datetime 2021-05-20 at noon), the midnight candidate is strictly before
`now`, so the code counts to next year's birthday and returns 364, not 0. -/
theorem C8_counterexample :
    days_to_birthday ⟨"alice", ["1234567890"], some "1990-05-20"⟩
        ⟨2021, 5, 20, 43200⟩ =
      .ok (some 364) ∧ (364 : Int) ≠ 0 := by
  decide

/-- C8 (amended): `days_to_birthday` is absent when no birthday is set;
otherwise it builds the midnight candidate in the current year, moves it to
the next year when it is strictly before the current datetime (so on the
birthday itself, at any time after midnight, it returns the distance to
next year's birthday rather than 0), and any value it returns is ≥ 0. -/
theorem C8_days_to_birthday (r : Record) (now : PyDateTime)
    (hy : 1 ≤ now.year) (hm : 1 ≤ now.month ∧ now.month ≤ 12)
    (hd : 1 ≤ now.day ∧ now.day ≤ daysInMonth now.year now.month)
    (hs : now.sec < 86400) :
    (r.birthday = none → days_to_birthday r now = .ok none) ∧
    (∀ n : Int, days_to_birthday r now = .ok (some n) → 0 ≤ n) := by
  constructor
  · intro h
    unfold days_to_birthday
    rw [h]
  · intro n hn
    obtain ⟨nm, ph, bdy⟩ := r
    cases bdy with
    | none => simp [days_to_birthday] at hn
    | some b =>
      simp only [days_to_birthday] at hn
      split at hn
      · cases hn
      · rename_i y0 bm bd hp
        split at hn
        · cases hn
        · rename_i cand hc
          have hcand : 1 ≤ bd ∧ bd ≤ daysInMonth now.year bm ∧
              cand = (86400 : Int) * ymd2ord now.year bm bd := by
            unfold mkDatetime at hc
            split_ifs at hc with h1 h2 h3
            · refine ⟨h3.1, h3.2, ?_⟩
              injection hc with h4
              omega
          split at hn
          · rename_i hlt
            split at hn
            · cases hn
            · rename_i cand2 hc2
              have hcand2 : 1 ≤ bd ∧ bd ≤ daysInMonth (now.year + 1) bm ∧
                  cand2 = (86400 : Int) * ymd2ord (now.year + 1) bm bd := by
                unfold mkDatetime at hc2
                split_ifs at hc2 with h1 h2 h3
                · refine ⟨h3.1, h3.2, ?_⟩
                  injection hc2 with h4
                  omega
              simp only [Except.ok.injEq, Option.some.injEq] at hn
              subst hn
              have hord := ymd2ord_lt_next_year now.year now.month now.day
                bm bd hy hm hd hcand.1
              have hpos : 0 ≤ cand2 - dtSecs now := by
                have hc2e := hcand2.2.2
                unfold dtSecs
                omega
              exact Int.fdiv_nonneg hpos (by norm_num)
          · rename_i hge
            simp only [Except.ok.injEq, Option.some.injEq] at hn
            subst hn
            exact Int.fdiv_nonneg (by omega) (by norm_num)

theorem C8_days_to_birthday_witness :
    days_to_birthday ⟨"bob", [], some "1990-05-20"⟩ ⟨2021, 5, 20, 43200⟩ =
      .ok (some 364) ∧
    days_to_birthday ⟨"bob", [], none⟩ ⟨2021, 5, 20, 43200⟩ = .ok none ∧
    (0 : Int) ≤ 364 :=
  ⟨by decide,
   (C8_days_to_birthday ⟨"bob", [], none⟩ ⟨2021, 5, 20, 43200⟩ (by decide)
      (by decide) (by decide) (by decide)).1 rfl,
   (C8_days_to_birthday ⟨"bob", [], some "1990-05-20"⟩ ⟨2021, 5, 20, 43200⟩
      (by decide) (by decide) (by decide) (by decide)).2 364 (by decide)⟩

end Dz12
